import Mathlib

/-!
# Route resource of the OpenVPN Cloud provider

A shallow embedding of `openvpncloud/resource_route.go`: the schema of the
`openvpncloud_route` resource and its four lifecycle handlers
(`resourceRouteCreate`, `resourceRouteRead`, `resourceRouteUpdate`,
`resourceRouteDelete`).

The handlers talk to two collaborators that live outside the file:

* the remote API client (`client.Client`), taken here as a parameter: a record
  of four operations over an arbitrary remote state `σ`;
* the plugin SDK's `schema.ResourceData`, of which the handlers use `Id`,
  `SetId`, `Get`, `Set`, `GetChange` and `HasChanges`.

Every remote call a handler makes is appended to a call log, so that "how many
calls, and which" is a statement about the handler's result.

`Set` on a key the schema does not have is an error; the SDK panics on it when
the record was built with `panicOnError` (which it is when `TF_ACC` is set, as
under acceptance tests) and logs and returns it otherwise. A handler that calls
`Set` therefore returns an `Option`: `none` is the panic.
-/

namespace openvpncloud

/-! ## The remote API client -/

/-- Modelled from the spec: the constant `client.RouteTypeIPV4` is declared in the
client package; the schema's description of `type` gives its value. -/
def RouteTypeIPV4 : String := "IP_V4"

/-- Modelled from the spec: the constant `client.RouteTypeIPV6` is declared in the
client package; the schema's description of `type` gives its value. -/
def RouteTypeIPV6 : String := "IP_V6"

/-- Modelled from the spec: the constant `client.RouteTypeDomain` is declared in the
client package; the schema's description of `type` gives its value. -/
def RouteTypeDomain : String := "DOMAIN"

/-- Modelled from the spec: the struct `client.Route` is declared in the client
package; its fields are the ones the handlers read or write, all Go strings
(the zero value of each is the empty string). The field `Type` is spelled
`Type_` here. -/
structure Route where
  Id : String := ""
  Type_ : String := ""
  Value : String := ""
  Description : String := ""
  Subnet : String := ""
  Domain : String := ""
  NetworkItemId : String := ""
  deriving DecidableEq

/-- A non-nil Go `error`, known by the message `err.Error()` returns. -/
structure Error where
  msg : String
  deriving DecidableEq

/-- Modelled from the spec: the methods of `client.Client` are declared in the
client package. Their shapes follow section 6 of the specification:
`CreateRoute` returns a route or an error, `GetRouteById` a route, nil or an
error, `UpdateRoute` and `DeleteRoute` an error or nil. Each operation may
change the remote state `σ`. -/
structure Client (σ : Type) where
  CreateRoute : String → Route → σ → Except Error Route × σ
  GetRouteById : String → σ → Except Error (Option Route) × σ
  UpdateRoute : String → Route → σ → Option Error × σ
  DeleteRoute : String → String → σ → Option Error × σ

/-- One remote call, with the arguments it was made with. -/
inductive Call where
  | CreateRoute (networkItemId : String) (r : Route)
  | GetRouteById (routeId : String)
  | UpdateRoute (networkItemId : String) (r : Route)
  | DeleteRoute (networkItemId : String) (routeId : String)
  deriving DecidableEq

/-- The world a handler runs in: the remote state and the log of remote calls
made so far, oldest first. -/
structure World (σ : Type) where
  remote : σ
  log : List Call

/-- The call `c.CreateRoute(networkItemId, r)`, logged. -/
def Client.callCreateRoute {σ : Type} (c : Client σ) (networkItemId : String) (r : Route)
    (w : World σ) : Except Error Route × World σ :=
  ((c.CreateRoute networkItemId r w.remote).1,
    { remote := (c.CreateRoute networkItemId r w.remote).2,
      log := w.log ++ [Call.CreateRoute networkItemId r] })

/-- The call `c.GetRouteById(routeId)`, logged. -/
def Client.callGetRouteById {σ : Type} (c : Client σ) (routeId : String)
    (w : World σ) : Except Error (Option Route) × World σ :=
  ((c.GetRouteById routeId w.remote).1,
    { remote := (c.GetRouteById routeId w.remote).2,
      log := w.log ++ [Call.GetRouteById routeId] })

/-- The call `c.UpdateRoute(networkItemId, r)`, logged. -/
def Client.callUpdateRoute {σ : Type} (c : Client σ) (networkItemId : String) (r : Route)
    (w : World σ) : Option Error × World σ :=
  ((c.UpdateRoute networkItemId r w.remote).1,
    { remote := (c.UpdateRoute networkItemId r w.remote).2,
      log := w.log ++ [Call.UpdateRoute networkItemId r] })

/-- The call `c.DeleteRoute(networkItemId, routeId)`, logged. -/
def Client.callDeleteRoute {σ : Type} (c : Client σ) (networkItemId : String) (routeId : String)
    (w : World σ) : Option Error × World σ :=
  ((c.DeleteRoute networkItemId routeId w.remote).1,
    { remote := (c.DeleteRoute networkItemId routeId w.remote).2,
      log := w.log ++ [Call.DeleteRoute networkItemId routeId] })

/-- A client that answers every call with a fixed response and keeps no state:
the test double used for the concrete scenarios. -/
def scriptedClient (create : Except Error Route) (get : Except Error (Option Route))
    (update : Option Error) (delete : Option Error) : Client Unit where
  CreateRoute := fun _ _ s => (create, s)
  GetRouteById := fun _ s => (get, s)
  UpdateRoute := fun _ _ s => (update, s)
  DeleteRoute := fun _ _ s => (delete, s)

/-! ## Diagnostics -/

/-- The severity of a diagnostic (`diag.Severity`). -/
inductive Severity where
  | Error
  | Warning
  deriving DecidableEq

/-- A diagnostic of the plugin SDK (`diag.Diagnostic`). -/
structure Diagnostic where
  Severity : Severity
  Summary : String
  Detail : String := ""
  deriving DecidableEq

/-- A list of diagnostics (`diag.Diagnostics`); the nil slice is the empty list. -/
abbrev Diagnostics := List Diagnostic

/-- The SDK's `diag.FromErr` on a non-nil error: one diagnostic of severity error
whose summary is the error's message. -/
def FromErr (err : Error) : Diagnostics :=
  [{ Severity := Severity.Error, Summary := err.msg }]

/-! ## The record: `schema.ResourceData` over the route schema -/

/-- The attributes the schema of `resourceRoute` declares, all of `TypeString`:
`type`, `value`, `network_item_id` and `description`. -/
structure Attrs where
  type : String := ""
  value : String := ""
  network_item_id : String := ""
  description : String := ""
  deriving DecidableEq

/-- The attribute stored under a schema key; a key outside the schema has none. -/
def Attrs.get? (a : Attrs) (key : String) : Option String :=
  if key = "type" then some a.type
  else if key = "value" then some a.value
  else if key = "network_item_id" then some a.network_item_id
  else if key = "description" then some a.description
  else none

/-- Writing an attribute under a schema key; a key outside the schema is refused. -/
def Attrs.set? (a : Attrs) (key : String) (v : String) : Option Attrs :=
  if key = "type" then some { a with type := v }
  else if key = "value" then some { a with value := v }
  else if key = "network_item_id" then some { a with network_item_id := v }
  else if key = "description" then some { a with description := v }
  else none

/-- The SDK's `schema.ResourceData` for this resource. `state` is the prior
state, `planned` the prior state merged with the planned diff (the desired
values), and `current` the planned values merged with what the handler has
written through `Set`. `panicOnError` is the SDK's field of that name: it is
set when the environment variable `TF_ACC` is, and makes `Set` panic on an
error instead of returning it. -/
structure ResourceData where
  id : String
  state : Attrs
  planned : Attrs
  current : Attrs
  panicOnError : Bool := false
  deriving DecidableEq

/-- The record handed to a handler: nothing has been written through `Set` yet. -/
def ResourceData.fresh (id : String) (state planned : Attrs) : ResourceData :=
  { id := id, state := state, planned := planned, current := planned, panicOnError := false }

/-- The record handed to a handler when `TF_ACC` is set. -/
def ResourceData.freshUnderTest (id : String) (state planned : Attrs) : ResourceData :=
  { id := id, state := state, planned := planned, current := planned, panicOnError := true }

/-- The method `d.Id()`. -/
def ResourceData.Id (d : ResourceData) : String := d.id

/-- The method `d.SetId(v)`. -/
def ResourceData.SetId (d : ResourceData) (v : String) : ResourceData :=
  { d with id := v }

/-- The method `d.Get(key).(string)`: the current value of the attribute, the zero
value when there is none. -/
def ResourceData.Get (d : ResourceData) (key : String) : String :=
  (d.current.get? key).getD ""

/-- The method `d.Set(key, value)`. When `key` is an attribute of the schema the
value is written and no error is returned. Otherwise the write fails: with
`panicOnError` the method panics (`none`), without it the record is left alone
and the error is returned. -/
def ResourceData.Set (d : ResourceData) (key : String) (v : String) :
    Option (ResourceData × Option Error) :=
  match d.current.set? key v with
  | some a => some ({ d with current := a }, none)
  | none =>
    if d.panicOnError then none
    else some (d, some ⟨"Invalid address to set: " ++ key⟩)

/-- The method `d.GetChange(key)`: the attribute in the prior state and in the
planned (desired) state. -/
def ResourceData.GetChange (d : ResourceData) (key : String) : String × String :=
  ((d.state.get? key).getD "", (d.planned.get? key).getD "")

/-- The method `d.HasChange(key)`: whether the two sides of `GetChange` differ. -/
def ResourceData.HasChange (d : ResourceData) (key : String) : Bool :=
  (d.GetChange key).1 != (d.GetChange key).2

/-- The method `d.HasChanges(keys...)`: whether any of the keys has a change. -/
def ResourceData.HasChanges (d : ResourceData) (keys : List String) : Bool :=
  keys.any fun key => d.HasChange key

/-! ## The handlers -/

/-- What a handler leaves behind: the record, the diagnostics it returns and the
world after its remote calls. -/
structure Outcome (σ : Type) where
  d : ResourceData
  diags : Diagnostics
  world : World σ

/-- The handler `resourceRouteCreate`; `none` when a `Set` panics. The errors `Set`
returns are dropped, as in the source. -/
def resourceRouteCreate {σ : Type} (c : Client σ) (d : ResourceData) (w : World σ) :
    Option (Outcome σ) :=
  let diags : Diagnostics := []
  let networkItemId := d.Get "network_item_id"
  let routeType := d.Get "type"
  let routeValue := d.Get "value"
  let descriptionValue := d.Get "description"
  let r : Route := { Type_ := routeType, Value := routeValue, Description := descriptionValue }
  match c.callCreateRoute networkItemId r w with
  | (Except.error err, w1) => some { d := d, diags := diags ++ FromErr err, world := w1 }
  | (Except.ok route, w1) =>
    let d1 := d.SetId route.Id
    if routeType == RouteTypeIPV4 || routeType == RouteTypeIPV6 then
      (d1.Set "value" route.Subnet).bind fun p =>
        some { d := p.1, diags := diags, world := w1 }
    else if routeType == RouteTypeDomain then
      (d1.Set "value" route.Domain).bind fun p =>
        some { d := p.1, diags := diags, world := w1 }
    else some { d := d1, diags := diags, world := w1 }

/-- The handler `resourceRouteRead`; `none` when a `Set` panics. The errors `Set`
returns are dropped, as in the source. -/
def resourceRouteRead {σ : Type} (c : Client σ) (d : ResourceData) (w : World σ) :
    Option (Outcome σ) :=
  let diags : Diagnostics := []
  let routeId := d.Id
  match c.callGetRouteById routeId w with
  | (Except.error err, w1) => some { d := d, diags := diags ++ FromErr err, world := w1 }
  | (Except.ok none, w1) => some { d := d.SetId "", diags := diags, world := w1 }
  | (Except.ok (some r), w1) =>
    (d.Set "type" r.Type_).bind fun p1 =>
    (if r.Type_ == RouteTypeIPV4 || r.Type_ == RouteTypeIPV6 then
        p1.1.Set "value" r.Subnet
      else if r.Type_ == RouteTypeDomain then
        p1.1.Set "resourceRouteRead" r.Domain
      else some (p1.1, none)).bind fun p2 =>
    (p2.1.Set "description" r.Description).bind fun p3 =>
    (p3.1.Set "network_item_id" r.NetworkItemId).bind fun p4 =>
    some { d := p4.1, diags := diags, world := w1 }

/-- The handler `resourceRouteUpdate`. It never calls `Set`. -/
def resourceRouteUpdate {σ : Type} (c : Client σ) (d : ResourceData) (w : World σ) :
    Outcome σ :=
  let diags : Diagnostics := []
  if !d.HasChanges ["description", "value"] then
    { d := d, diags := diags, world := w }
  else
    let networkItemId := d.Get "network_item_id"
    let description := (d.GetChange "description").2
    let value := (d.GetChange "value").2
    let r : Route := { Id := d.Id, Description := description, Value := value }
    match c.callUpdateRoute networkItemId r w with
    | (some err, w1) => { d := d, diags := diags ++ FromErr err, world := w1 }
    | (none, w1) => { d := d, diags := diags, world := w1 }

/-- The handler `resourceRouteDelete`. It never calls `Set`. -/
def resourceRouteDelete {σ : Type} (c : Client σ) (d : ResourceData) (w : World σ) :
    Outcome σ :=
  let diags : Diagnostics := []
  let routeId := d.Id
  let networkItemId := d.Get "network_item_id"
  match c.callDeleteRoute networkItemId routeId w with
  | (some err, w1) => { d := d, diags := diags ++ FromErr err, world := w1 }
  | (none, w1) => { d := d, diags := diags, world := w1 }

/-- The request `resourceRouteCreate` builds from the record. -/
def createRequest (d : ResourceData) : Route :=
  { Type_ := d.Get "type", Value := d.Get "value", Description := d.Get "description" }

/-- The writes `resourceRouteRead` makes for a route that was found, from
`d.Set("type", r.Type)` to `d.Set("network_item_id", r.NetworkItemId)`; `none`
when one of them panics. -/
def readFound (d : ResourceData) (r : Route) : Option ResourceData :=
  (d.Set "type" r.Type_).bind fun p1 =>
  (if r.Type_ == RouteTypeIPV4 || r.Type_ == RouteTypeIPV6 then
      p1.1.Set "value" r.Subnet
    else if r.Type_ == RouteTypeDomain then
      p1.1.Set "resourceRouteRead" r.Domain
    else some (p1.1, none)).bind fun p2 =>
  (p2.1.Set "description" r.Description).bind fun p3 =>
  (p3.1.Set "network_item_id" r.NetworkItemId).bind fun p4 =>
  some p4.1

/-! ## Reading and writing attributes -/

theorem Set_type (d : ResourceData) (v : String) :
    d.Set "type" v = some ({ d with current := { d.current with type := v } }, none) := rfl

theorem Set_value (d : ResourceData) (v : String) :
    d.Set "value" v = some ({ d with current := { d.current with value := v } }, none) := rfl

theorem Set_description (d : ResourceData) (v : String) :
    d.Set "description" v
      = some ({ d with current := { d.current with description := v } }, none) := rfl

theorem Set_network_item_id (d : ResourceData) (v : String) :
    d.Set "network_item_id" v
      = some ({ d with current := { d.current with network_item_id := v } }, none) := rfl

theorem Set_resourceRouteRead (d : ResourceData) (v : String) :
    d.Set "resourceRouteRead" v
      = if d.panicOnError then none
        else some (d, some ⟨"Invalid address to set: " ++ "resourceRouteRead"⟩) := rfl

/-! ## The branches of the handlers -/

theorem resourceRouteRead_of_found {σ : Type} (c : Client σ) (d : ResourceData) (w : World σ)
    (r : Route) (s1 : σ) (h : c.GetRouteById d.Id w.remote = (Except.ok (some r), s1)) :
    resourceRouteRead c d w =
      (readFound d r).bind fun d4 =>
        some { d := d4, diags := [],
               world := { remote := s1, log := w.log ++ [Call.GetRouteById d.Id] } } := by
  simp only [resourceRouteRead, Client.callGetRouteById, h, readFound, Set_type, Set_description,
    Set_network_item_id, Option.some_bind, Option.bind_assoc]

theorem resourceRouteRead_of_missing {σ : Type} (c : Client σ) (d : ResourceData) (w : World σ)
    (s1 : σ) (h : c.GetRouteById d.Id w.remote = (Except.ok none, s1)) :
    resourceRouteRead c d w =
      some { d := d.SetId "", diags := [],
             world := { remote := s1, log := w.log ++ [Call.GetRouteById d.Id] } } := by
  simp [resourceRouteRead, Client.callGetRouteById, h]

theorem resourceRouteRead_of_error {σ : Type} (c : Client σ) (d : ResourceData) (w : World σ)
    (e : Error) (s1 : σ) (h : c.GetRouteById d.Id w.remote = (Except.error e, s1)) :
    resourceRouteRead c d w =
      some { d := d, diags := FromErr e,
             world := { remote := s1, log := w.log ++ [Call.GetRouteById d.Id] } } := by
  simp [resourceRouteRead, Client.callGetRouteById, h]

theorem resourceRouteCreate_of_error {σ : Type} (c : Client σ) (d : ResourceData) (w : World σ)
    (e : Error) (s1 : σ)
    (h : c.CreateRoute (d.Get "network_item_id") (createRequest d) w.remote
      = (Except.error e, s1)) :
    resourceRouteCreate c d w =
      some { d := d, diags := FromErr e,
             world := { remote := s1,
                        log := w.log ++
                          [Call.CreateRoute (d.Get "network_item_id") (createRequest d)] } } := by
  simp only [createRequest] at h
  simp [resourceRouteCreate, Client.callCreateRoute, h, createRequest]

theorem resourceRouteCreate_of_ok {σ : Type} (c : Client σ) (d : ResourceData) (w : World σ)
    (r : Route) (s1 : σ)
    (h : c.CreateRoute (d.Get "network_item_id") (createRequest d) w.remote = (Except.ok r, s1)) :
    resourceRouteCreate c d w =
      some { d :=
               if d.Get "type" == RouteTypeIPV4 || d.Get "type" == RouteTypeIPV6 then
                 { d with id := r.Id, current := { d.current with value := r.Subnet } }
               else if d.Get "type" == RouteTypeDomain then
                 { d with id := r.Id, current := { d.current with value := r.Domain } }
               else d.SetId r.Id,
             diags := [],
             world := { remote := s1,
                        log := w.log ++
                          [Call.CreateRoute (d.Get "network_item_id") (createRequest d)] } } := by
  simp only [createRequest] at h
  simp only [resourceRouteCreate, Client.callCreateRoute, h, createRequest, Set_value,
    Option.some_bind]
  split_ifs <;> rfl

theorem resourceRouteUpdate_of_change {σ : Type} (c : Client σ) (d : ResourceData) (w : World σ)
    (h : d.HasChanges ["description", "value"] = true) :
    resourceRouteUpdate c d w =
      { d := d,
        diags :=
          match (c.UpdateRoute (d.Get "network_item_id")
              { Id := d.Id, Description := (d.GetChange "description").2,
                Value := (d.GetChange "value").2 } w.remote).1 with
          | some e => FromErr e
          | none => [],
        world :=
          { remote := (c.UpdateRoute (d.Get "network_item_id")
              { Id := d.Id, Description := (d.GetChange "description").2,
                Value := (d.GetChange "value").2 } w.remote).2,
            log := w.log ++ [Call.UpdateRoute (d.Get "network_item_id")
              { Id := d.Id, Description := (d.GetChange "description").2,
                Value := (d.GetChange "value").2 }] } } := by
  unfold resourceRouteUpdate
  simp only [h, Bool.not_true, Bool.false_eq_true, if_false, Client.callUpdateRoute]
  split <;> rename_i hx <;> simp only [Prod.mk.injEq] at hx <;> obtain ⟨h1, h2⟩ := hx <;>
    simp [h1, ← h2]

theorem resourceRouteDelete_eq {σ : Type} (c : Client σ) (d : ResourceData) (w : World σ) :
    resourceRouteDelete c d w =
      { d := d,
        diags :=
          match (c.DeleteRoute (d.Get "network_item_id") d.Id w.remote).1 with
          | some e => FromErr e
          | none => [],
        world :=
          { remote := (c.DeleteRoute (d.Get "network_item_id") d.Id w.remote).2,
            log := w.log ++ [Call.DeleteRoute (d.Get "network_item_id") d.Id] } } := by
  unfold resourceRouteDelete
  simp only [Client.callDeleteRoute]
  split <;> rename_i hx <;> simp only [Prod.mk.injEq] at hx <;> obtain ⟨h1, h2⟩ := hx <;>
    simp [h1, ← h2]

/-! ## What a successful Read stores -/

theorem readFound_subnet (d : ResourceData) (r : Route)
    (h : r.Type_ = RouteTypeIPV4 ∨ r.Type_ = RouteTypeIPV6) :
    readFound d r =
      some { d with current := { type := r.Type_, value := r.Subnet,
                                 network_item_id := r.NetworkItemId,
                                 description := r.Description } } := by
  have hc : (r.Type_ == RouteTypeIPV4 || r.Type_ == RouteTypeIPV6) = true := by
    rcases h with h | h <;> simp [h]
  simp only [readFound, hc, if_true, Set_type, Set_value, Set_description, Set_network_item_id,
    Option.some_bind]

theorem readFound_other (d : ResourceData) (r : Route)
    (h4 : r.Type_ ≠ RouteTypeIPV4) (h6 : r.Type_ ≠ RouteTypeIPV6)
    (hd : r.Type_ ≠ RouteTypeDomain) :
    readFound d r =
      some { d with current := { type := r.Type_, value := d.current.value,
                                 network_item_id := r.NetworkItemId,
                                 description := r.Description } } := by
  have hc : (r.Type_ == RouteTypeIPV4 || r.Type_ == RouteTypeIPV6) = false := by
    simp [h4, h6]
  have hc2 : (r.Type_ == RouteTypeDomain) = false := by simp [hd]
  simp only [readFound, hc, hc2, Bool.false_eq_true, if_false, Set_type, Set_description,
    Set_network_item_id, Option.some_bind]

theorem readFound_domain (d : ResourceData) (r : Route) (h : r.Type_ = RouteTypeDomain) :
    readFound d r =
      if d.panicOnError then none
      else some { d with current := { type := r.Type_, value := d.current.value,
                                      network_item_id := r.NetworkItemId,
                                      description := r.Description } } := by
  have hc : (r.Type_ == RouteTypeIPV4 || r.Type_ == RouteTypeIPV6) = false := by
    rw [h]; decide
  have hc2 : (r.Type_ == RouteTypeDomain) = true := by simp [h]
  simp only [readFound, hc, hc2, Bool.false_eq_true, if_false, if_true, Set_type,
    Set_description, Set_network_item_id, Set_resourceRouteRead, Option.some_bind]
  cases d.panicOnError <;> rfl

/-! ## Create -/

theorem resourceRouteCreate_ok_fields {σ : Type} (c : Client σ) (d : ResourceData) (w : World σ)
    (r : Route) (s1 : σ)
    (hcall : c.CreateRoute (d.Get "network_item_id")
      { Type_ := d.Get "type", Value := d.Get "value", Description := d.Get "description" }
      w.remote = (Except.ok r, s1)) :
    ∃ out, resourceRouteCreate c d w = some out ∧
      out.world.remote = s1 ∧
      out.d.panicOnError = d.panicOnError ∧
      out.diags = [] ∧
      out.d.Id = r.Id ∧
      (d.Get "type" = RouteTypeIPV4 ∨ d.Get "type" = RouteTypeIPV6 →
        out.d.Get "value" = r.Subnet) ∧
      (d.Get "type" = RouteTypeDomain → out.d.Get "value" = r.Domain) ∧
      out.d.Get "type" = d.Get "type" ∧
      out.d.Get "description" = d.Get "description" ∧
      out.d.Get "network_item_id" = d.Get "network_item_id" := by
  refine ⟨_, resourceRouteCreate_of_ok c d w r s1 hcall, rfl, ?_, rfl, ?_, ?_, ?_, ?_, ?_, ?_⟩
  · show ResourceData.panicOnError (if _ then _ else _) = _
    split_ifs <;> rfl
  · show ResourceData.Id (if _ then _ else _) = _
    split_ifs <;> rfl
  · intro h
    have hc : (d.Get "type" == RouteTypeIPV4 || d.Get "type" == RouteTypeIPV6) = true := by
      rcases h with h | h <;> simp [h]
    show ResourceData.Get (if _ then _ else _) "value" = _
    rw [if_pos hc]
    rfl
  · intro h
    have hc : (d.Get "type" == RouteTypeIPV4 || d.Get "type" == RouteTypeIPV6) = false := by
      rw [h]; decide
    show ResourceData.Get (if _ then _ else _) "value" = _
    rw [hc, h]
    simp only [Bool.false_eq_true, if_false, beq_self_eq_true, if_true]
    rfl
  · show ResourceData.Get (if _ then _ else _) "type" = _
    split_ifs <;> rfl
  · show ResourceData.Get (if _ then _ else _) "description" = _
    split_ifs <;> rfl
  · show ResourceData.Get (if _ then _ else _) "network_item_id" = _
    split_ifs <;> rfl

/-- C2: when the remote `CreateRoute` call succeeds with route `r`,
`resourceRouteCreate` returns (it does not panic), with no diagnostics, and
leaves the record with identifier `r.Id`, with value `r.Subnet` when the type
is IP_V4 or IP_V6 and `r.Domain` when the type is DOMAIN, and with type,
description and network_item_id as they were. -/
theorem resourceRouteCreate_success {σ : Type} (c : Client σ) (d : ResourceData) (w : World σ)
    (r : Route) (s1 : σ)
    (hcall : c.CreateRoute (d.Get "network_item_id")
      { Type_ := d.Get "type", Value := d.Get "value", Description := d.Get "description" }
      w.remote = (Except.ok r, s1)) :
    ∃ out, resourceRouteCreate c d w = some out ∧
      out.diags = [] ∧
      out.d.Id = r.Id ∧
      (d.Get "type" = RouteTypeIPV4 ∨ d.Get "type" = RouteTypeIPV6 →
        out.d.Get "value" = r.Subnet) ∧
      (d.Get "type" = RouteTypeDomain → out.d.Get "value" = r.Domain) ∧
      out.d.Get "type" = d.Get "type" ∧
      out.d.Get "description" = d.Get "description" ∧
      out.d.Get "network_item_id" = d.Get "network_item_id" :=
  (resourceRouteCreate_ok_fields c d w r s1 hcall).imp fun _ h => ⟨h.1, h.2.2.2⟩

/-- The scenario of C2: type IP_V4, value 10.0.0.0/24 on network net1; the remote
answers with id r1 and subnet 10.0.0.0/24. -/
theorem resourceRouteCreate_success_witness :
    (scriptedClient (Except.ok { Id := "r1", Type_ := "IP_V4", Subnet := "10.0.0.0/24" })
        (Except.ok none) none none).CreateRoute "net1"
      { Type_ := "IP_V4", Value := "10.0.0.0/24", Description := "Managed by Terraform" } ()
      = (Except.ok { Id := "r1", Type_ := "IP_V4", Subnet := "10.0.0.0/24" }, ()) ∧
    (∃ out,
      resourceRouteCreate
        (scriptedClient (Except.ok { Id := "r1", Type_ := "IP_V4", Subnet := "10.0.0.0/24" })
        (Except.ok none) none none)
        (ResourceData.fresh "" {}
        { type := "IP_V4", value := "10.0.0.0/24", network_item_id := "net1",
          description := "Managed by Terraform" })
        { remote := (), log := [] } = some out ∧
      out.d.Id = "r1" ∧ out.d.Get "type" = "IP_V4" ∧ out.d.Get "value" = "10.0.0.0/24" ∧
      out.d.Get "description" = "Managed by Terraform" ∧
      out.d.Get "network_item_id" = "net1") :=
  ⟨rfl,
    (resourceRouteCreate_success
      (scriptedClient (Except.ok { Id := "r1", Type_ := "IP_V4", Subnet := "10.0.0.0/24" })
        (Except.ok none) none none)
      (ResourceData.fresh "" {}
        { type := "IP_V4", value := "10.0.0.0/24", network_item_id := "net1",
          description := "Managed by Terraform" })
      { remote := (), log := [] }
      { Id := "r1", Type_ := "IP_V4", Subnet := "10.0.0.0/24" } () rfl).imp
      fun _ h => ⟨h.1, h.2.2.1, h.2.2.2.2.2.1, h.2.2.2.1 (Or.inl rfl), h.2.2.2.2.2.2.1,
        h.2.2.2.2.2.2.2⟩⟩

/-! ## Read -/

/-- C9: when the lookup returns a route `r` of type IP_V4 or IP_V6, Read returns (it
does not panic), with no diagnostics, and leaves the record with type `r.Type`,
value `r.Subnet`, description `r.Description` and network_item_id
`r.NetworkItemId`, whatever they held before, and with the identifier it had. -/
theorem resourceRouteRead_subnet {σ : Type} (c : Client σ) (d : ResourceData) (w : World σ)
    (r : Route) (s1 : σ)
    (htype : r.Type_ = RouteTypeIPV4 ∨ r.Type_ = RouteTypeIPV6)
    (hcall : c.GetRouteById d.Id w.remote = (Except.ok (some r), s1)) :
    ∃ out, resourceRouteRead c d w = some out ∧
      out.diags = [] ∧
      out.d.Get "type" = r.Type_ ∧
      out.d.Get "value" = r.Subnet ∧
      out.d.Get "description" = r.Description ∧
      out.d.Get "network_item_id" = r.NetworkItemId ∧
      out.d.Id = d.Id := by
  rw [resourceRouteRead_of_found c d w r s1 hcall, readFound_subnet d r htype]
  exact ⟨_, rfl, rfl, rfl, rfl, rfl, rfl, rfl⟩

/-- A Read of record r1 whose remote route is the IP_V6 route 2001:db8::/32 of
network net2, while the record still holds an IP_V4 route of network net1. -/
theorem resourceRouteRead_subnet_witness :
    ("IP_V6" = RouteTypeIPV4 ∨ "IP_V6" = RouteTypeIPV6) ∧
    (∃ out,
      resourceRouteRead
        (scriptedClient (Except.error ⟨"unused"⟩)
        (Except.ok (some { Id := "r1", Type_ := "IP_V6", Subnet := "2001:db8::/32",
                           Description := "uplink", NetworkItemId := "net2" })) none none)
        (ResourceData.fresh "r1"
        { type := "IP_V4", value := "10.0.0.0/24", network_item_id := "net1" }
        { type := "IP_V4", value := "10.0.0.0/24", network_item_id := "net1" })
        { remote := (), log := [] } = some out ∧
      out.d.Get "type" = "IP_V6" ∧ out.d.Get "value" = "2001:db8::/32" ∧
      out.d.Get "description" = "uplink" ∧ out.d.Get "network_item_id" = "net2" ∧
      out.d.Id = "r1") :=
  ⟨Or.inr rfl,
    (resourceRouteRead_subnet
      (scriptedClient (Except.error ⟨"unused"⟩)
        (Except.ok (some { Id := "r1", Type_ := "IP_V6", Subnet := "2001:db8::/32",
                           Description := "uplink", NetworkItemId := "net2" })) none none)
      (ResourceData.fresh "r1"
        { type := "IP_V4", value := "10.0.0.0/24", network_item_id := "net1" }
        { type := "IP_V4", value := "10.0.0.0/24", network_item_id := "net1" })
      { remote := (), log := [] }
      { Id := "r1", Type_ := "IP_V6", Subnet := "2001:db8::/32",
                           Description := "uplink", NetworkItemId := "net2" } () (Or.inr rfl) rfl).imp fun _ h => ⟨h.1, h.2.2⟩⟩

/-- C10: when the lookup returns a route `r` whose type is none of IP_V4, IP_V6,
DOMAIN, Read returns (it does not panic), with no diagnostics, overwrites type,
description and network_item_id with those of `r`, and leaves the value
attribute as it was: neither `r.Subnet` nor `r.Domain` is stored. -/
theorem resourceRouteRead_other_type {σ : Type} (c : Client σ) (d : ResourceData) (w : World σ)
    (r : Route) (s1 : σ)
    (h4 : r.Type_ ≠ RouteTypeIPV4) (h6 : r.Type_ ≠ RouteTypeIPV6)
    (hd : r.Type_ ≠ RouteTypeDomain)
    (hcall : c.GetRouteById d.Id w.remote = (Except.ok (some r), s1)) :
    ∃ out, resourceRouteRead c d w = some out ∧
      out.diags = [] ∧
      out.d.Get "type" = r.Type_ ∧
      out.d.Get "description" = r.Description ∧
      out.d.Get "network_item_id" = r.NetworkItemId ∧
      out.d.Get "value" = d.Get "value" ∧
      out.d.current.value = d.current.value := by
  rw [resourceRouteRead_of_found c d w r s1 hcall, readFound_other d r h4 h6 hd]
  exact ⟨_, rfl, rfl, rfl, rfl, rfl, rfl, rfl⟩

/-- A Read of record r1 whose remote route has the type SERVICE: the value
10.0.0.0/24 of the record stays, although the route carries another subnet and a
domain. -/
theorem resourceRouteRead_other_type_witness :
    "SERVICE" ≠ RouteTypeIPV4 ∧ "SERVICE" ≠ RouteTypeIPV6 ∧ "SERVICE" ≠ RouteTypeDomain ∧
    (∃ out,
      resourceRouteRead
        (scriptedClient (Except.error ⟨"unused"⟩)
        (Except.ok (some { Id := "r1", Type_ := "SERVICE", Subnet := "10.9.9.0/24",
                           Domain := "example.com", Description := "svc",
                           NetworkItemId := "net2" })) none none)
        (ResourceData.fresh "r1"
        { type := "IP_V4", value := "10.0.0.0/24", network_item_id := "net1" }
        { type := "IP_V4", value := "10.0.0.0/24", network_item_id := "net1" })
        { remote := (), log := [] } = some out ∧
      out.d.Get "type" = "SERVICE" ∧ out.d.Get "description" = "svc" ∧
      out.d.Get "network_item_id" = "net2" ∧ out.d.Get "value" = "10.0.0.0/24") :=
  ⟨by decide, by decide, by decide,
    (resourceRouteRead_other_type
      (scriptedClient (Except.error ⟨"unused"⟩)
        (Except.ok (some { Id := "r1", Type_ := "SERVICE", Subnet := "10.9.9.0/24",
                           Domain := "example.com", Description := "svc",
                           NetworkItemId := "net2" })) none none)
      (ResourceData.fresh "r1"
        { type := "IP_V4", value := "10.0.0.0/24", network_item_id := "net1" }
        { type := "IP_V4", value := "10.0.0.0/24", network_item_id := "net1" })
      { remote := (), log := [] }
      { Id := "r1", Type_ := "SERVICE", Subnet := "10.9.9.0/24",
                           Domain := "example.com", Description := "svc",
                           NetworkItemId := "net2" } ()
      (by decide) (by decide) (by decide) rfl).imp
      fun _ h => ⟨h.1, h.2.2.1, h.2.2.2.1, h.2.2.2.2.1, h.2.2.2.2.2.1⟩⟩

/-- C7: when the lookup returns no route and no error, Read returns, sets the
identifier to the empty string, gives no diagnostics and leaves type, value,
description and network_item_id as they were. -/
theorem resourceRouteRead_not_found {σ : Type} (c : Client σ) (d : ResourceData) (w : World σ)
    (s1 : σ) (hcall : c.GetRouteById d.Id w.remote = (Except.ok none, s1)) :
    ∃ out, resourceRouteRead c d w = some out ∧
      out.d.Id = "" ∧
      out.diags = [] ∧
      out.d.Get "type" = d.Get "type" ∧
      out.d.Get "value" = d.Get "value" ∧
      out.d.Get "description" = d.Get "description" ∧
      out.d.Get "network_item_id" = d.Get "network_item_id" ∧
      out.d.state = d.state ∧
      out.d.planned = d.planned ∧
      out.d.current = d.current := by
  rw [resourceRouteRead_of_missing c d w s1 hcall]
  exact ⟨_, rfl, rfl, rfl, rfl, rfl, rfl, rfl, rfl, rfl, rfl⟩

/-- The scenario of C7: Read of record r1 when the lookup returns nil and no error. -/
theorem resourceRouteRead_not_found_witness :
    (scriptedClient (Except.error ⟨"unused"⟩) (Except.ok none) none none).GetRouteById "r1" ()
      = (Except.ok none, ()) ∧
    (∃ out,
      resourceRouteRead (scriptedClient (Except.error ⟨"unused"⟩) (Except.ok none) none none)
        (ResourceData.fresh "r1"
        { type := "IP_V4", value := "10.0.0.0/24", network_item_id := "net1" }
        { type := "IP_V4", value := "10.0.0.0/24", network_item_id := "net1" })
        { remote := (), log := [] } = some out ∧
      out.d.Id = "" ∧ out.diags = []) :=
  ⟨rfl,
    (resourceRouteRead_not_found
      (scriptedClient (Except.error ⟨"unused"⟩) (Except.ok none) none none)
      (ResourceData.fresh "r1"
        { type := "IP_V4", value := "10.0.0.0/24", network_item_id := "net1" }
        { type := "IP_V4", value := "10.0.0.0/24", network_item_id := "net1" })
      { remote := (), log := [] } () rfl).imp fun _ h => ⟨h.1, h.2.1, h.2.2.1⟩⟩

/-- C1, at its failing input: record r1 holds the DOMAIN route old.example.com and
the lookup returns the DOMAIN route new.example.com. The write of the domain
goes to the key `resourceRouteRead`, which the schema does not have. Without
`panicOnError` Read returns no diagnostics and the value attribute is still
old.example.com, not the domain of the remote route; with `panicOnError` (under
`TF_ACC`) Read panics. In neither case does the record hold new.example.com. -/
theorem resourceRouteRead_domain_value_stale :
    (∃ out,
      resourceRouteRead
        (scriptedClient (Except.error ⟨"unused"⟩)
        (Except.ok (some { Id := "r1", Type_ := "DOMAIN", Domain := "new.example.com",
                           Description := "Managed by Terraform", NetworkItemId := "net1" }))
        none none)
        (ResourceData.fresh "r1"
        { type := "DOMAIN", value := "old.example.com", network_item_id := "net1",
          description := "Managed by Terraform" }
        { type := "DOMAIN", value := "old.example.com", network_item_id := "net1",
          description := "Managed by Terraform" })
        { remote := (), log := [] } = some out ∧
      out.diags = [] ∧
      out.d.Get "value" = "old.example.com" ∧
      out.d.Get "value" ≠ "new.example.com") ∧
    resourceRouteRead
      (scriptedClient (Except.error ⟨"unused"⟩)
        (Except.ok (some { Id := "r1", Type_ := "DOMAIN", Domain := "new.example.com",
                           Description := "Managed by Terraform", NetworkItemId := "net1" }))
        none none)
      (ResourceData.freshUnderTest "r1"
        { type := "DOMAIN", value := "old.example.com", network_item_id := "net1",
          description := "Managed by Terraform" }
        { type := "DOMAIN", value := "old.example.com", network_item_id := "net1",
          description := "Managed by Terraform" })
      { remote := (), log := [] } = none :=
  ⟨⟨_, rfl, rfl, by decide, by decide⟩, rfl⟩

/-! ## Create followed by Read -/

theorem create_then_read_subnet {σ : Type} (c : Client σ) (d : ResourceData) (w : World σ)
    (r : Route) (s1 s2 : σ)
    (htype : d.Get "type" = RouteTypeIPV4 ∨ d.Get "type" = RouteTypeIPV6)
    (hcreate : c.CreateRoute (d.Get "network_item_id")
      { Type_ := d.Get "type", Value := d.Get "value", Description := d.Get "description" }
      w.remote = (Except.ok r, s1))
    (hrtype : r.Type_ = d.Get "type")
    (hget : c.GetRouteById r.Id s1 = (Except.ok (some r), s2)) :
    ∃ out1 out2, resourceRouteCreate c d w = some out1 ∧
      resourceRouteRead c out1.d out1.world = some out2 ∧
      out2.diags = [] ∧ out2.d.Get "value" = r.Subnet := by
  obtain ⟨out1, h1, hw, -, -, hid, -, -, -, -, -⟩ :=
    resourceRouteCreate_ok_fields c d w r s1 hcreate
  have hcall : c.GetRouteById out1.d.Id out1.world.remote = (Except.ok (some r), s2) := by
    rw [hid, hw]; exact hget
  have h2 := resourceRouteRead_of_found c out1.d out1.world r s2 hcall
  rw [readFound_subnet _ r (htype.imp hrtype.trans hrtype.trans)] at h2
  exact ⟨out1, _, h1, h2, rfl, rfl⟩

theorem create_then_read_domain {σ : Type} (c : Client σ) (d : ResourceData) (w : World σ)
    (r : Route) (s1 s2 : σ)
    (htype : d.Get "type" = RouteTypeDomain)
    (hcreate : c.CreateRoute (d.Get "network_item_id")
      { Type_ := d.Get "type", Value := d.Get "value", Description := d.Get "description" }
      w.remote = (Except.ok r, s1))
    (hrtype : r.Type_ = d.Get "type")
    (hget : c.GetRouteById r.Id s1 = (Except.ok (some r), s2))
    (hpanic : d.panicOnError = true) :
    ∃ out1, resourceRouteCreate c d w = some out1 ∧
      resourceRouteRead c out1.d out1.world = none := by
  obtain ⟨out1, h1, hw, hp, -, hid, -, -, -, -, -⟩ :=
    resourceRouteCreate_ok_fields c d w r s1 hcreate
  have hcall : c.GetRouteById out1.d.Id out1.world.remote = (Except.ok (some r), s2) := by
    rw [hid, hw]; exact hget
  refine ⟨out1, h1, ?_⟩
  rw [resourceRouteRead_of_found c _ _ r s2 hcall, readFound_domain _ r (hrtype.trans htype),
    hp, hpanic]
  rfl

/-- C3, at its failing input: a DOMAIN record of network net1, built with
`panicOnError` (under `TF_ACC`); `CreateRoute` succeeds with the DOMAIN route r1
of domain example.com and the lookup of r1 returns the same route. Create
returns with identifier r1 and value example.com; the Read that follows panics
at the write to the key `resourceRouteRead` and yields no record. -/
theorem create_then_read_domain_panics :
    (scriptedClient (Except.ok { Id := "r1", Type_ := "DOMAIN", Domain := "example.com" })
        (Except.ok (some { Id := "r1", Type_ := "DOMAIN", Domain := "example.com" })) none none).CreateRoute "net1"
      { Type_ := "DOMAIN", Value := "example.com", Description := "" } ()
      = (Except.ok { Id := "r1", Type_ := "DOMAIN", Domain := "example.com" }, ()) ∧
    (scriptedClient (Except.ok { Id := "r1", Type_ := "DOMAIN", Domain := "example.com" })
        (Except.ok (some { Id := "r1", Type_ := "DOMAIN", Domain := "example.com" })) none none).GetRouteById "r1" ()
      = (Except.ok (some { Id := "r1", Type_ := "DOMAIN", Domain := "example.com" }), ()) ∧
    (∃ out1,
      resourceRouteCreate
        (scriptedClient (Except.ok { Id := "r1", Type_ := "DOMAIN", Domain := "example.com" })
        (Except.ok (some { Id := "r1", Type_ := "DOMAIN", Domain := "example.com" })) none none)
        (ResourceData.freshUnderTest "" {}
          { type := "DOMAIN", value := "example.com", network_item_id := "net1" })
        { remote := (), log := [] } = some out1 ∧
      out1.diags = [] ∧ out1.d.Id = "r1" ∧ out1.d.Get "type" = "DOMAIN" ∧
      out1.d.Get "value" = "example.com" ∧
      resourceRouteRead
        (scriptedClient (Except.ok { Id := "r1", Type_ := "DOMAIN", Domain := "example.com" })
        (Except.ok (some { Id := "r1", Type_ := "DOMAIN", Domain := "example.com" })) none none)
        out1.d out1.world = none) :=
  ⟨rfl, rfl, _, rfl, rfl, rfl, rfl, rfl, rfl⟩

/-! ## Update -/

theorem HasChanges_description_value (d : ResourceData) :
    d.HasChanges ["description", "value"] = true ↔
      (d.state.description ≠ d.planned.description ∨ d.state.value ≠ d.planned.value) := by
  simp [ResourceData.HasChanges, ResourceData.HasChange, ResourceData.GetChange, Attrs.get?]

theorem resourceRouteUpdate_of_no_change {σ : Type} (c : Client σ) (d : ResourceData)
    (w : World σ) (h : d.HasChanges ["description", "value"] = false) :
    resourceRouteUpdate c d w = { d := d, diags := [], world := w } := by
  simp [resourceRouteUpdate, h]

/-- C4: `resourceRouteUpdate` makes no remote call and returns no diagnostics when
description and value are both the same in the prior and the desired state; it
makes exactly one call, an `UpdateRoute`, when description or value differs. -/
theorem resourceRouteUpdate_calls {σ : Type} (c : Client σ) (d : ResourceData) (w : World σ) :
    (d.state.description = d.planned.description ∧ d.state.value = d.planned.value →
      (resourceRouteUpdate c d w).world.log = w.log ∧
      (resourceRouteUpdate c d w).world.remote = w.remote ∧
      (resourceRouteUpdate c d w).diags = []) ∧
    (d.state.description ≠ d.planned.description ∨ d.state.value ≠ d.planned.value →
      ∃ n r, (resourceRouteUpdate c d w).world.log = w.log ++ [Call.UpdateRoute n r]) := by
  constructor
  · intro h
    have hn : d.HasChanges ["description", "value"] = false := by
      rw [← Bool.not_eq_true, HasChanges_description_value]
      simp [h.1, h.2]
    rw [resourceRouteUpdate_of_no_change c d w hn]
    exact ⟨rfl, rfl, rfl⟩
  · intro h
    rw [resourceRouteUpdate_of_change c d w ((HasChanges_description_value d).2 h)]
    exact ⟨_, _, rfl⟩

/-- Two updates of record r1: one with nothing changed, which leaves the call log
empty, and one with the value changed, which logs a single `UpdateRoute`. -/
theorem resourceRouteUpdate_calls_witness :
    (resourceRouteUpdate (scriptedClient (Except.error ⟨"unused"⟩) (Except.ok none) none none)
      (ResourceData.fresh "r1"
        { type := "IP_V4", value := "10.0.0.0/24", network_item_id := "net1",
          description := "Managed by Terraform" }
        { type := "IP_V4", value := "10.0.0.0/24", network_item_id := "net1",
          description := "Managed by Terraform" })
      { remote := (), log := [] }).world.log = [] ∧
    (∃ n r,
      (resourceRouteUpdate (scriptedClient (Except.error ⟨"unused"⟩) (Except.ok none) none none)
        (ResourceData.fresh "r1"
          { type := "IP_V4", value := "10.0.0.0/24", network_item_id := "net1",
            description := "Managed by Terraform" }
          { type := "IP_V4", value := "10.0.1.0/24", network_item_id := "net1",
            description := "Managed by Terraform" })
        { remote := (), log := [] }).world.log = [] ++ [Call.UpdateRoute n r]) :=
  ⟨((resourceRouteUpdate_calls
      (scriptedClient (Except.error ⟨"unused"⟩) (Except.ok none) none none)
      (ResourceData.fresh "r1"
        { type := "IP_V4", value := "10.0.0.0/24", network_item_id := "net1",
          description := "Managed by Terraform" }
        { type := "IP_V4", value := "10.0.0.0/24", network_item_id := "net1",
          description := "Managed by Terraform" })
      { remote := (), log := [] }).1 ⟨rfl, rfl⟩).1,
    (resourceRouteUpdate_calls
      (scriptedClient (Except.error ⟨"unused"⟩) (Except.ok none) none none)
      (ResourceData.fresh "r1"
        { type := "IP_V4", value := "10.0.0.0/24", network_item_id := "net1",
          description := "Managed by Terraform" }
        { type := "IP_V4", value := "10.0.1.0/24", network_item_id := "net1",
          description := "Managed by Terraform" })
      { remote := (), log := [] }).2 (Or.inr (by decide))⟩

/-- C5: when description or value changed, the one call of `resourceRouteUpdate`
is `UpdateRoute` on the record's network_item_id, with a route whose `Id` is
the record's identifier, whose `Description` and `Value` are the desired
description and value, and whose other fields, `Type` among them, are empty. -/
theorem resourceRouteUpdate_request {σ : Type} (c : Client σ) (d : ResourceData) (w : World σ)
    (h : d.state.description ≠ d.planned.description ∨ d.state.value ≠ d.planned.value) :
    (resourceRouteUpdate c d w).world.log =
      w.log ++ [Call.UpdateRoute (d.Get "network_item_id")
        { Id := d.Id, Type_ := "", Value := d.planned.value,
          Description := d.planned.description, Subnet := "", Domain := "",
          NetworkItemId := "" }] := by
  rw [resourceRouteUpdate_of_change c d w ((HasChanges_description_value d).2 h)]
  rfl

/-- The scenario of C5: record r1 of network net1, description unchanged, value
changed to 10.0.1.0/24. -/
theorem resourceRouteUpdate_request_witness :
    (({ type := "IP_V4", value := "10.0.0.0/24", network_item_id := "net1",
        description := "Managed by Terraform" } : Attrs).value ≠ "10.0.1.0/24") ∧
    (resourceRouteUpdate (scriptedClient (Except.error ⟨"unused"⟩) (Except.ok none) none none)
      (ResourceData.fresh "r1"
        { type := "IP_V4", value := "10.0.0.0/24", network_item_id := "net1",
          description := "Managed by Terraform" }
        { type := "IP_V4", value := "10.0.1.0/24", network_item_id := "net1",
          description := "Managed by Terraform" })
      { remote := (), log := [] }).world.log =
      [Call.UpdateRoute "net1"
        { Id := "r1", Value := "10.0.1.0/24", Description := "Managed by Terraform" }] :=
  ⟨by decide,
    resourceRouteUpdate_request
      (scriptedClient (Except.error ⟨"unused"⟩) (Except.ok none) none none)
      (ResourceData.fresh "r1"
        { type := "IP_V4", value := "10.0.0.0/24", network_item_id := "net1",
          description := "Managed by Terraform" }
        { type := "IP_V4", value := "10.0.1.0/24", network_item_id := "net1",
          description := "Managed by Terraform" })
      { remote := (), log := [] } (Or.inr (by decide))⟩

/-! ## Delete -/

/-- C6: `resourceRouteDelete` makes exactly one remote call, `DeleteRoute(n, i)` with
`n` the record's network_item_id and `i` its identifier, in that order, and
returns the record as it received it. -/
theorem resourceRouteDelete_call {σ : Type} (c : Client σ) (d : ResourceData) (w : World σ) :
    (resourceRouteDelete c d w).world.log =
      w.log ++ [Call.DeleteRoute (d.Get "network_item_id") d.Id] ∧
    (resourceRouteDelete c d w).world.remote =
      (c.DeleteRoute (d.Get "network_item_id") d.Id w.remote).2 ∧
    (resourceRouteDelete c d w).d = d := by
  rw [resourceRouteDelete_eq]
  exact ⟨rfl, rfl, rfl⟩

/-! ## Failure of the remote call -/

/-- C8: when the remote call of a handler fails with error `e` (for
`resourceRouteUpdate`: when a change of description or value is pending, so
that the call is made), the handler returns exactly one diagnostic, of severity
error and with the message of `e` as summary, and the record it leaves is the
record it received: Create sets no identifier, Read keeps the identifier. -/
theorem remote_failure_propagates {σ : Type} (c : Client σ) (d : ResourceData) (w : World σ)
    (e : Error) :
    (∀ s1, c.CreateRoute (d.Get "network_item_id")
        { Type_ := d.Get "type", Value := d.Get "value", Description := d.Get "description" }
        w.remote = (Except.error e, s1) →
      ∃ out, resourceRouteCreate c d w = some out ∧
        out.diags = [{ Severity := Severity.Error, Summary := e.msg }] ∧ out.d = d) ∧
    (∀ s1, c.GetRouteById d.Id w.remote = (Except.error e, s1) →
      ∃ out, resourceRouteRead c d w = some out ∧
        out.diags = [{ Severity := Severity.Error, Summary := e.msg }] ∧ out.d = d) ∧
    (d.state.description ≠ d.planned.description ∨ d.state.value ≠ d.planned.value →
      (c.UpdateRoute (d.Get "network_item_id")
        { Id := d.Id, Description := d.planned.description, Value := d.planned.value }
        w.remote).1 = some e →
      (resourceRouteUpdate c d w).diags = [{ Severity := Severity.Error, Summary := e.msg }] ∧
      (resourceRouteUpdate c d w).d = d) ∧
    ((c.DeleteRoute (d.Get "network_item_id") d.Id w.remote).1 = some e →
      (resourceRouteDelete c d w).diags = [{ Severity := Severity.Error, Summary := e.msg }] ∧
      (resourceRouteDelete c d w).d = d) := by
  refine ⟨?_, ?_, ?_, ?_⟩
  · intro s1 h
    exact ⟨_, resourceRouteCreate_of_error c d w e s1 h, rfl, rfl⟩
  · intro s1 h
    exact ⟨_, resourceRouteRead_of_error c d w e s1 h, rfl, rfl⟩
  · intro hch h
    have h2 : (c.UpdateRoute (d.Get "network_item_id")
        { Id := d.Id, Description := (d.GetChange "description").2,
          Value := (d.GetChange "value").2 } w.remote).1 = some e := h
    rw [resourceRouteUpdate_of_change c d w ((HasChanges_description_value d).2 hch)]
    simp [h2, FromErr]
  · intro h
    rw [resourceRouteDelete_eq]
    simp [h, FromErr]

/-- The scenario of C8: the remote refuses every call with "unauthorized". Delete of
record r1 on network net1 returns a diagnostic with that message and the record
unchanged, and so do Create, Read and Update on the same record. -/
theorem remote_failure_propagates_witness :
    ((resourceRouteDelete
      (scriptedClient (Except.error ⟨"unauthorized"⟩) (Except.error ⟨"unauthorized"⟩)
        (some ⟨"unauthorized"⟩) (some ⟨"unauthorized"⟩))
      (ResourceData.fresh "r1"
        { type := "IP_V4", value := "10.0.0.0/24", network_item_id := "net1",
          description := "Managed by Terraform" }
        { type := "IP_V4", value := "10.0.1.0/24", network_item_id := "net1",
          description := "Managed by Terraform" })
      { remote := (), log := [] }).diags
        = [{ Severity := Severity.Error, Summary := "unauthorized" }] ∧
      (resourceRouteDelete
      (scriptedClient (Except.error ⟨"unauthorized"⟩) (Except.error ⟨"unauthorized"⟩)
        (some ⟨"unauthorized"⟩) (some ⟨"unauthorized"⟩))
      (ResourceData.fresh "r1"
        { type := "IP_V4", value := "10.0.0.0/24", network_item_id := "net1",
          description := "Managed by Terraform" }
        { type := "IP_V4", value := "10.0.1.0/24", network_item_id := "net1",
          description := "Managed by Terraform" })
      { remote := (), log := [] }).d = (ResourceData.fresh "r1"
        { type := "IP_V4", value := "10.0.0.0/24", network_item_id := "net1",
          description := "Managed by Terraform" }
        { type := "IP_V4", value := "10.0.1.0/24", network_item_id := "net1",
          description := "Managed by Terraform" })) ∧
    (∃ out, resourceRouteCreate
      (scriptedClient (Except.error ⟨"unauthorized"⟩) (Except.error ⟨"unauthorized"⟩)
        (some ⟨"unauthorized"⟩) (some ⟨"unauthorized"⟩))
      (ResourceData.fresh "r1"
        { type := "IP_V4", value := "10.0.0.0/24", network_item_id := "net1",
          description := "Managed by Terraform" }
        { type := "IP_V4", value := "10.0.1.0/24", network_item_id := "net1",
          description := "Managed by Terraform" })
      { remote := (), log := [] } = some out ∧
      out.diags = [{ Severity := Severity.Error, Summary := "unauthorized" }] ∧
      out.d = (ResourceData.fresh "r1"
        { type := "IP_V4", value := "10.0.0.0/24", network_item_id := "net1",
          description := "Managed by Terraform" }
        { type := "IP_V4", value := "10.0.1.0/24", network_item_id := "net1",
          description := "Managed by Terraform" })) ∧
    (∃ out, resourceRouteRead
      (scriptedClient (Except.error ⟨"unauthorized"⟩) (Except.error ⟨"unauthorized"⟩)
        (some ⟨"unauthorized"⟩) (some ⟨"unauthorized"⟩))
      (ResourceData.fresh "r1"
        { type := "IP_V4", value := "10.0.0.0/24", network_item_id := "net1",
          description := "Managed by Terraform" }
        { type := "IP_V4", value := "10.0.1.0/24", network_item_id := "net1",
          description := "Managed by Terraform" })
      { remote := (), log := [] } = some out ∧
      out.diags = [{ Severity := Severity.Error, Summary := "unauthorized" }] ∧
      out.d = (ResourceData.fresh "r1"
        { type := "IP_V4", value := "10.0.0.0/24", network_item_id := "net1",
          description := "Managed by Terraform" }
        { type := "IP_V4", value := "10.0.1.0/24", network_item_id := "net1",
          description := "Managed by Terraform" })) ∧
    ((resourceRouteUpdate
      (scriptedClient (Except.error ⟨"unauthorized"⟩) (Except.error ⟨"unauthorized"⟩)
        (some ⟨"unauthorized"⟩) (some ⟨"unauthorized"⟩))
      (ResourceData.fresh "r1"
        { type := "IP_V4", value := "10.0.0.0/24", network_item_id := "net1",
          description := "Managed by Terraform" }
        { type := "IP_V4", value := "10.0.1.0/24", network_item_id := "net1",
          description := "Managed by Terraform" })
      { remote := (), log := [] }).diags
        = [{ Severity := Severity.Error, Summary := "unauthorized" }] ∧
      (resourceRouteUpdate
      (scriptedClient (Except.error ⟨"unauthorized"⟩) (Except.error ⟨"unauthorized"⟩)
        (some ⟨"unauthorized"⟩) (some ⟨"unauthorized"⟩))
      (ResourceData.fresh "r1"
        { type := "IP_V4", value := "10.0.0.0/24", network_item_id := "net1",
          description := "Managed by Terraform" }
        { type := "IP_V4", value := "10.0.1.0/24", network_item_id := "net1",
          description := "Managed by Terraform" })
      { remote := (), log := [] }).d = (ResourceData.fresh "r1"
        { type := "IP_V4", value := "10.0.0.0/24", network_item_id := "net1",
          description := "Managed by Terraform" }
        { type := "IP_V4", value := "10.0.1.0/24", network_item_id := "net1",
          description := "Managed by Terraform" })) :=
  ⟨(remote_failure_propagates
      (scriptedClient (Except.error ⟨"unauthorized"⟩) (Except.error ⟨"unauthorized"⟩)
        (some ⟨"unauthorized"⟩) (some ⟨"unauthorized"⟩))
      (ResourceData.fresh "r1"
        { type := "IP_V4", value := "10.0.0.0/24", network_item_id := "net1",
          description := "Managed by Terraform" }
        { type := "IP_V4", value := "10.0.1.0/24", network_item_id := "net1",
          description := "Managed by Terraform" })
      { remote := (), log := [] } ⟨"unauthorized"⟩).2.2.2 rfl,
    (remote_failure_propagates
      (scriptedClient (Except.error ⟨"unauthorized"⟩) (Except.error ⟨"unauthorized"⟩)
        (some ⟨"unauthorized"⟩) (some ⟨"unauthorized"⟩))
      (ResourceData.fresh "r1"
        { type := "IP_V4", value := "10.0.0.0/24", network_item_id := "net1",
          description := "Managed by Terraform" }
        { type := "IP_V4", value := "10.0.1.0/24", network_item_id := "net1",
          description := "Managed by Terraform" })
      { remote := (), log := [] } ⟨"unauthorized"⟩).1 () rfl,
    (remote_failure_propagates
      (scriptedClient (Except.error ⟨"unauthorized"⟩) (Except.error ⟨"unauthorized"⟩)
        (some ⟨"unauthorized"⟩) (some ⟨"unauthorized"⟩))
      (ResourceData.fresh "r1"
        { type := "IP_V4", value := "10.0.0.0/24", network_item_id := "net1",
          description := "Managed by Terraform" }
        { type := "IP_V4", value := "10.0.1.0/24", network_item_id := "net1",
          description := "Managed by Terraform" })
      { remote := (), log := [] } ⟨"unauthorized"⟩).2.1 () rfl,
    (remote_failure_propagates
      (scriptedClient (Except.error ⟨"unauthorized"⟩) (Except.error ⟨"unauthorized"⟩)
        (some ⟨"unauthorized"⟩) (some ⟨"unauthorized"⟩))
      (ResourceData.fresh "r1"
        { type := "IP_V4", value := "10.0.0.0/24", network_item_id := "net1",
          description := "Managed by Terraform" }
        { type := "IP_V4", value := "10.0.1.0/24", network_item_id := "net1",
          description := "Managed by Terraform" })
      { remote := (), log := [] } ⟨"unauthorized"⟩).2.2.1 (Or.inr (by decide)) rfl⟩

end openvpncloud
